import Mathlib

/-!
Shallow embedding of the websocket-api service of the repository
(`src/services/websocket-api`): the socket.io event handlers of
`events/chatEvents.js`, `events/userEvents.js`, `events/roomEvents.js`
(shipped as `src/unnamed/part_009`) and the helpers of
`utils/helpers.js` (shipped as `src/unnamed/part_008`).

Modelling conventions:
* A JS string-valued payload field is `Option String`: `none` models a
  missing / `null` / `undefined` field, `some s` a string.  JS truthiness
  of such a field is `jsTruthy` (`none` and the empty string are falsy).
* A numeric payload field is `Option Nat` (`none` = missing, `0` falsy).
* `new Date()` / `Date.now()` are modelled by an explicit `now : Nat`
  argument; `Math.random().toString(36).substr(2, 9)` by an explicit
  `rand : String` argument.
* The socket.io server state is the list of connected sockets (each with
  its lazily created `socket.user`) plus the adapter's room table
  (room name to member socket ids, in join order).
* An emitted event is an `Emit`: the list of recipient socket ids, the
  event name, and a structured payload.
* A handler whose body is wrapped in `try/catch` is a total function
  returning `ServerState × List Emit`; its raw body returns
  `Except String (ServerState × List Emit)` where `Except.error`
  models a thrown JS exception (the only throw site reachable from a
  client payload is destructuring an `undefined` payload object), and
  `handleCaught` models the catch-block call to `handleSocketError`.
  The two typing handlers have no `try/catch` in the source, so they
  return the `Except` directly.
-/

namespace WsApi

/-- JS truthiness of an optional string field: missing, null and the
empty string are falsy. -/
def jsTruthy : Option String → Bool
  | none => false
  | some s => !(s == "")

/-- JS truthiness of an optional numeric field: missing and 0 are falsy. -/
def jsTruthyN : Option Nat → Bool
  | none => false
  | some n => !(n == 0)

/-- JS `a || b` for an optional string: the default when the field is falsy. -/
def jsOrS (o : Option String) (dflt : String) : String :=
  if jsTruthy o then o.getD "" else dflt

/-- JS `a || b` for an optional number: the default when the field is falsy. -/
def jsOrN (o : Option Nat) (dflt : Nat) : Nat :=
  if jsTruthyN o then o.getD 0 else dflt

/-- JS `s.slice(-4)`: the last four characters (the whole string when
shorter than four characters). -/
def jsSliceNeg4 (s : String) : String :=
  ⟨s.data.drop (s.data.length - 4)⟩

/-- Decimal digits of a natural number, least significant first, with
explicit structural fuel (the JS engine renders `Date.now()` in decimal). -/
def digitsRevFuel : Nat → Nat → List Nat
  | _, 0 => []
  | 0, _ + 1 => []
  | f + 1, n + 1 => ((n + 1) % 10) :: digitsRevFuel f ((n + 1) / 10)

/-- Rendering of a natural number by a JS template literal, e.g.
the `${Date.now()}` inside the generated room and message ids. -/
def jsNumToString (n : Nat) : String :=
  if n = 0 then "0" else ⟨((digitsRevFuel n n).map Nat.digitChar).reverse⟩

/-- The demo user synthesized from a socket id by `createDemoUser` in
`utils/helpers.js`. -/
structure User where
  id : String
  firstName : String
  lastName : String
  email : String
  avatar : Option String
  role : String
  isOnline : Bool
  lastSeen : Nat
  deriving DecidableEq

/-- Public user shape `{id, firstName, lastName, avatar}` used in
broadcast payloads. -/
structure PubUser where
  id : String
  firstName : String
  lastName : String
  avatar : Option String
  deriving DecidableEq

/-- Public user shape `{id, firstName, lastName}` (no avatar), used by
typing / edit / room payloads. -/
structure PubUserNA where
  id : String
  firstName : String
  lastName : String
  deriving DecidableEq

def User.pub (u : User) : PubUser :=
  { id := u.id, firstName := u.firstName, lastName := u.lastName, avatar := u.avatar }

def User.pubNA (u : User) : PubUserNA :=
  { id := u.id, firstName := u.firstName, lastName := u.lastName }

/-- `createDemoUser(socketId)` of `utils/helpers.js`. -/
def createDemoUser (socketId : String) (now : Nat) : User :=
  { id := socketId
    firstName := "User" ++ jsSliceNeg4 socketId
    lastName := "Demo"
    email := "user" ++ jsSliceNeg4 socketId ++ "@demo.com"
    avatar := none
    role := "user"
    isOnline := true
    lastSeen := now }

/-- One connected socket: its id and the lazily attached `socket.user`. -/
structure Socket where
  id : String
  user : Option User
  deriving DecidableEq

/-- The socket.io server state: connected sockets in registration order,
and the adapter's room table (room name to member socket ids in join
order). -/
structure ServerState where
  sockets : List Socket
  rooms : List (String × List String)
  deriving DecidableEq

def socketIds (st : ServerState) : List String :=
  st.sockets.map (·.id)

def findSock (st : ServerState) (sid : String) : Option Socket :=
  st.sockets.find? (fun s => s.id == sid)

/-- Member socket ids of a room in the adapter table. -/
def lookupMembers : List (String × List String) → String → List String
  | [], _ => []
  | (n, ms) :: rest, rn => if n == rn then ms else lookupMembers rest rn

def membersOf (st : ServerState) (roomName : String) : List String :=
  lookupMembers st.rooms roomName

/-- `socket.join(roomName)`: add the socket to the room's member set
(idempotent, the adapter stores a set). -/
def addMember : List (String × List String) → String → String → List (String × List String)
  | [], rn, sid => [(rn, [sid])]
  | (n, ms) :: rest, rn, sid =>
    if n == rn then (n, if sid ∈ ms then ms else ms ++ [sid]) :: rest
    else (n, ms) :: addMember rest rn sid

/-- `socket.leave(roomName)`: remove the socket from the room's member set. -/
def dropMember : List (String × List String) → String → String → List (String × List String)
  | [], _, _ => []
  | (n, ms) :: rest, rn, sid =>
    if n == rn then (n, ms.filter (fun m => m != sid)) :: rest
    else (n, ms) :: dropMember rest rn sid

def joinAdapter (st : ServerState) (roomName sid : String) : ServerState :=
  { st with rooms := addMember st.rooms roomName sid }

def leaveAdapter (st : ServerState) (roomName sid : String) : ServerState :=
  { st with rooms := dropMember st.rooms roomName sid }

/-- Transport-level disconnect bookkeeping done by the socket.io library:
the socket leaves every room and is removed from the namespace. -/
def removeEverywhere (st : ServerState) (sid : String) : ServerState :=
  { sockets := st.sockets.filter (fun s => s.id != sid)
    rooms := st.rooms.map (fun p => (p.1, p.2.filter (fun m => m != sid))) }

def setSocketUser (st : ServerState) (sid : String) (u : User) : ServerState :=
  { st with sockets := st.sockets.map (fun s => if s.id == sid then { s with user := some u } else s) }

/-- `getUserForSocket(socket)` of `utils/helpers.js`: create and attach a
demo user on first use, return the attached user afterwards. -/
def getUserForSocket (st : ServerState) (sid : String) (now : Nat) : ServerState × User :=
  match findSock st sid with
  | none => (st, createDemoUser sid now)
  | some sock =>
    match sock.user with
    | some u => (st, u)
    | none => (setSocketUser st sid (createDemoUser sid now), createDemoUser sid now)

/-- `getRoomName(roomId)` of `utils/helpers.js`. -/
def getRoomName (roomId : String) : String := "room:" ++ roomId

/-- The room id generated by `create_room` in `events/roomEvents.js`. -/
def createRoomId (now : Nat) (rand : String) : String :=
  "room_" ++ jsNumToString now ++ "_" ++ rand

/-- The message id generated by `send_message` in `events/chatEvents.js`. -/
def createMessageId (now : Nat) (rand : String) : String :=
  "msg_" ++ jsNumToString now ++ "_" ++ rand

/-- The message object built by `send_message`. -/
structure Message where
  id : String
  content : String
  type : String
  senderId : String
  roomId : String
  replyToId : Option String
  createdAt : Nat
  sender : PubUser
  roomIdField : String
  roomNameField : String
  deriving DecidableEq

/-- The room object built by `create_room`. -/
structure RoomRec where
  id : String
  name : String
  description : Option String
  type : String
  createdById : String
  maxMembers : Nat
  createdAt : Nat
  deriving DecidableEq

/-- The room summary broadcast as `room_created`. -/
structure RoomSummary where
  id : String
  name : String
  description : Option String
  type : String
  createdBy : PubUserNA
  memberCount : Nat
  createdAt : Nat
  deriving DecidableEq

/-- The room object broadcast by `update_room` and `get_room_info`. -/
structure RoomUpd where
  id : String
  name : String
  description : String
  maxMembers : Nat
  updatedBy : PubUserNA
  timestamp : Nat
  deriving DecidableEq

/-- Structured payloads of the outbound events the handlers emit. -/
inductive Payload where
  | errV (message : String)
  | errC (message : String) (code : String)
  | userJoinedP (userId : String) (user : PubUser) (timestamp : Nat)
  | roomJoinedP (roomId : String) (message : String)
  | userLeftP (userId : String) (user : PubUser) (timestamp : Nat)
  | roomLeftP (roomId : String) (message : String)
  | messageSentP (message : Message)
  | newMessageP (message : Message)
  | messageEditedP (id : String) (content : String) (isEdited : Bool) (editedAt : Nat) (sender : PubUserNA)
  | messageDeletedP (messageId : String) (deletedBy : String) (timestamp : Nat)
  | userTypingP (userId : String) (user : PubUserNA) (timestamp : Nat)
  | userStoppedTypingP (userId : String) (timestamp : Nat)
  | userOfflineP (userId : String) (timestamp : Nat)
  | roomCreatedP (room : RoomSummary)
  | roomCreatedSuccessP (room : RoomRec) (message : String)
  | userJoinedRoomP (userId : String) (user : PubUser) (roomId : String) (timestamp : Nat)
  | roomJoinedSuccessP (roomId : String) (message : String)
  | userLeftRoomP (userId : String) (user : PubUserNA) (roomId : String) (timestamp : Nat)
  | roomLeftSuccessP (roomId : String) (message : String)
  | roomMembersP (roomId : String) (members : List String) (count : Nat)
  | roomInfoP (room : RoomSummary) (maxMembers : Nat)
  | roomUpdatedP (room : RoomUpd)
  | roomUpdatedSuccessP (room : RoomUpd) (message : String)
  | userStatusUpdateP (userId : String) (status : Option String) (timestamp : Nat)
  | statusUpdatedP (status : Option String) (message : String)
  | userProfileUpdatedP (userId : String) (user : PubUser) (timestamp : Nat)
  | profileUpdatedP (user : PubUser) (message : String)
  deriving DecidableEq

/-- One emitted outbound event: recipient socket ids (in delivery order),
event name, payload. -/
structure Emit where
  recipients : List String
  event : String
  payload : Payload
  deriving DecidableEq

/-- Recipients of `io.to(roomName).emit(...)`: every socket in the room. -/
def roomRecipients (st : ServerState) (roomName : String) : List String :=
  membersOf st roomName

/-- Recipients of `socket.to(roomName).emit(...)`: every socket in the
room except the emitting one. -/
def roomRecipientsExcl (st : ServerState) (roomName sid : String) : List String :=
  (membersOf st roomName).filter (fun m => m != sid)

/-- Recipients of `socket.broadcast.emit(...)`: every connected socket
except the emitting one. -/
def broadcastRecipients (st : ServerState) (sid : String) : List String :=
  (socketIds st).filter (fun m => m != sid)

/-- Message of the `TypeError` thrown when destructuring an `undefined`
payload object (models the JS engine error text). -/
def tyErr (field : String) : String :=
  "Cannot destructure property " ++ field ++ " of undefined"

/-- The `catch` block shared by the wrapped handlers: on a thrown error,
`handleSocketError` logs and emits a local `error` event with
`message = error.message` and `code = UNKNOWN_ERROR`. -/
def handleCaught (st : ServerState) (sid : String)
    (r : Except String (ServerState × List Emit)) : ServerState × List Emit :=
  match r with
  | .ok a => a
  | .error m => (st, [⟨[sid], "error", .errC m "UNKNOWN_ERROR"⟩])

/-- Payload of `join_room`, `leave_room`, `typing_start`, `typing_stop`,
`join_room_request`, `leave_room_request`, `get_room_members`,
`get_room_info`. -/
structure RoomIdData where
  roomId : Option String
  deriving DecidableEq

/-- Payload of `send_message`. -/
structure SendData where
  roomId : Option String
  content : Option String
  type : Option String
  replyToId : Option String
  deriving DecidableEq

/-- Payload of `edit_message`. -/
structure EditData where
  messageId : Option String
  content : Option String
  deriving DecidableEq

/-- Payload of `delete_message`. -/
structure DelData where
  messageId : Option String
  deriving DecidableEq

/-- Payload of `create_room`. -/
structure CreateRoomData where
  name : Option String
  description : Option String
  type : Option String
  maxMembers : Option Nat
  deriving DecidableEq

/-- Payload of `update_room`. -/
structure UpdateRoomData where
  roomId : Option String
  name : Option String
  description : Option String
  maxMembers : Option Nat
  deriving DecidableEq

/-- Payload of `update_status`. -/
structure StatusData where
  status : Option String
  deriving DecidableEq

/-- Payload of `update_profile`. -/
structure ProfileData where
  firstName : Option String
  lastName : Option String
  avatar : Option String
  deriving DecidableEq

/-- Body of the `join_room` handler of `events/chatEvents.js`
(lines 15 to 51). -/
def joinRoomBody (st : ServerState) (sid : String) (data : Option RoomIdData)
    (now : Nat) : Except String (ServerState × List Emit) :=
  match data with
  | none => .error (tyErr "roomId")
  | some d =>
    if !(jsTruthy d.roomId) then
      .ok (st, [⟨[sid], "error", .errV "Room ID is required"⟩])
    else
      let rid := d.roomId.getD ""
      let p := getUserForSocket st sid now
      let rn := getRoomName rid
      let st2 := joinAdapter p.1 rn sid
      .ok (st2,
        [⟨roomRecipientsExcl st2 rn sid, "user_joined", .userJoinedP p.2.id p.2.pub now⟩,
         ⟨[sid], "room_joined", .roomJoinedP rid "Successfully joined room"⟩])

def joinRoom (st : ServerState) (sid : String) (data : Option RoomIdData)
    (now : Nat) : ServerState × List Emit :=
  handleCaught st sid (joinRoomBody st sid data now)

/-- Body of the `leave_room` handler of `events/chatEvents.js`
(lines 54 to 88). -/
def leaveRoomBody (st : ServerState) (sid : String) (data : Option RoomIdData)
    (now : Nat) : Except String (ServerState × List Emit) :=
  match data with
  | none => .error (tyErr "roomId")
  | some d =>
    if !(jsTruthy d.roomId) then
      .ok (st, [⟨[sid], "error", .errV "Room ID is required"⟩])
    else
      let rid := d.roomId.getD ""
      let p := getUserForSocket st sid now
      let rn := getRoomName rid
      let st2 := leaveAdapter p.1 rn sid
      .ok (st2,
        [⟨roomRecipientsExcl st2 rn sid, "user_left", .userLeftP p.2.id p.2.pub now⟩,
         ⟨[sid], "room_left", .roomLeftP rid "Successfully left room"⟩])

def leaveRoom (st : ServerState) (sid : String) (data : Option RoomIdData)
    (now : Nat) : ServerState × List Emit :=
  handleCaught st sid (leaveRoomBody st sid data now)

/-- The message object built by `send_message` (lines 103 to 121 of
`events/chatEvents.js`). -/
def mkSentMessage (u : User) (rid content type : String) (replyToId : Option String)
    (now : Nat) (rand : String) : Message :=
  { id := createMessageId now rand
    content := content
    type := type
    senderId := u.id
    roomId := rid
    replyToId := replyToId
    createdAt := now
    sender := u.pub
    roomIdField := rid
    roomNameField := "Room " ++ rid }

/-- Body of the `send_message` handler of `events/chatEvents.js`
(lines 91 to 133). -/
def sendMessageBody (st : ServerState) (sid : String) (data : Option SendData)
    (now : Nat) (rand : String) : Except String (ServerState × List Emit) :=
  match data with
  | none => .error (tyErr "roomId")
  | some d =>
    if !(jsTruthy d.roomId) || !(jsTruthy d.content) then
      .ok (st, [⟨[sid], "error", .errV "Room ID and content are required"⟩])
    else
      let rid := d.roomId.getD ""
      let p := getUserForSocket st sid now
      let msg := mkSentMessage p.2 rid (d.content.getD "") (d.type.getD "text") d.replyToId now rand
      let rn := getRoomName rid
      .ok (p.1,
        [⟨roomRecipients p.1 rn, "message_sent", .messageSentP msg⟩,
         ⟨roomRecipients p.1 rn, "new_message", .newMessageP msg⟩])

def sendMessage (st : ServerState) (sid : String) (data : Option SendData)
    (now : Nat) (rand : String) : ServerState × List Emit :=
  handleCaught st sid (sendMessageBody st sid data now rand)

/-- Room names of the rooms the socket currently belongs to whose name
starts with the `room:` marker (models the `socket.rooms` iteration with
`roomName.startsWith` in `edit_message` / `delete_message`). -/
def chatRoomsOf (st : ServerState) (sid : String) : List String :=
  ((st.rooms.filter (fun p => sid ∈ p.2)).map (fun p => p.1)).filter
    (fun rn => rn.startsWith "room:")

/-- Body of the `edit_message` handler of `events/chatEvents.js`
(lines 136 to 171). -/
def editMessageBody (st : ServerState) (sid : String) (data : Option EditData)
    (now : Nat) : Except String (ServerState × List Emit) :=
  match data with
  | none => .error (tyErr "messageId")
  | some d =>
    if !(jsTruthy d.messageId) || !(jsTruthy d.content) then
      .ok (st, [⟨[sid], "error", .errV "Message ID and content are required"⟩])
    else
      let p := getUserForSocket st sid now
      .ok (p.1, (chatRoomsOf p.1 sid).map (fun rn =>
        ⟨roomRecipients p.1 rn, "message_edited",
          .messageEditedP (d.messageId.getD "") (d.content.getD "") true now p.2.pubNA⟩))

def editMessage (st : ServerState) (sid : String) (data : Option EditData)
    (now : Nat) : ServerState × List Emit :=
  handleCaught st sid (editMessageBody st sid data now)

/-- Body of the `delete_message` handler of `events/chatEvents.js`
(lines 174 to 203). -/
def deleteMessageBody (st : ServerState) (sid : String) (data : Option DelData)
    (now : Nat) : Except String (ServerState × List Emit) :=
  match data with
  | none => .error (tyErr "messageId")
  | some d =>
    if !(jsTruthy d.messageId) then
      .ok (st, [⟨[sid], "error", .errV "Message ID is required"⟩])
    else
      let p := getUserForSocket st sid now
      .ok (p.1, (chatRoomsOf p.1 sid).map (fun rn =>
        ⟨roomRecipients p.1 rn, "message_deleted",
          .messageDeletedP (d.messageId.getD "") p.2.id now⟩))

def deleteMessage (st : ServerState) (sid : String) (data : Option DelData)
    (now : Nat) : ServerState × List Emit :=
  handleCaught st sid (deleteMessageBody st sid data now)

/-- The `typing_start` handler of `events/chatEvents.js` (lines 206 to
221).  It has no `try/catch`: a missing payload object throws the
destructuring `TypeError` out of the handler (`Except.error`).  With a
payload present it emits `user_typing` (without any `isTyping` field) to
the other members when `roomId` is truthy, and silently does nothing
otherwise. -/
def typingStart (st : ServerState) (sid : String) (data : Option RoomIdData)
    (now : Nat) : Except String (ServerState × List Emit) :=
  match data with
  | none => .error (tyErr "roomId")
  | some d =>
    if jsTruthy d.roomId then
      let rid := d.roomId.getD ""
      let p := getUserForSocket st sid now
      .ok (p.1,
        [⟨roomRecipientsExcl p.1 (getRoomName rid) sid, "user_typing",
          .userTypingP p.2.id p.2.pubNA now⟩])
    else .ok (st, [])

/-- The `typing_stop` handler of `events/chatEvents.js` (lines 223 to
233).  No `try/catch`; emits `user_stopped_typing` (not `user_typing`)
to the other members. -/
def typingStop (st : ServerState) (sid : String) (data : Option RoomIdData)
    (now : Nat) : Except String (ServerState × List Emit) :=
  match data with
  | none => .error (tyErr "roomId")
  | some d =>
    if jsTruthy d.roomId then
      let rid := d.roomId.getD ""
      let p := getUserForSocket st sid now
      .ok (p.1,
        [⟨roomRecipientsExcl p.1 (getRoomName rid) sid, "user_stopped_typing",
          .userStoppedTypingP p.2.id now⟩])
    else .ok (st, [])

/-- Body of the `create_room` handler of `events/roomEvents.js`
(`src/unnamed/part_009`, lines 12 to 62). -/
def createRoomBody (st : ServerState) (sid : String) (data : Option CreateRoomData)
    (now : Nat) (rand : String) : Except String (ServerState × List Emit) :=
  match data with
  | none => .error (tyErr "name")
  | some d =>
    if !(jsTruthy d.name) then
      .ok (st, [⟨[sid], "error", .errV "Room name is required"⟩])
    else
      let p := getUserForSocket st sid now
      let room : RoomRec :=
        { id := createRoomId now rand
          name := d.name.getD ""
          description := d.description
          type := d.type.getD "public"
          createdById := p.2.id
          maxMembers := d.maxMembers.getD 100
          createdAt := now }
      let rn := getRoomName room.id
      let st2 := joinAdapter p.1 rn sid
      .ok (st2,
        [⟨socketIds st2, "room_created",
          .roomCreatedP
            { id := room.id, name := room.name, description := room.description
              type := room.type, createdBy := p.2.pubNA, memberCount := 1
              createdAt := room.createdAt }⟩,
         ⟨[sid], "room_created_success", .roomCreatedSuccessP room "Room created successfully"⟩])

def createRoom (st : ServerState) (sid : String) (data : Option CreateRoomData)
    (now : Nat) (rand : String) : ServerState × List Emit :=
  handleCaught st sid (createRoomBody st sid data now rand)

/-- Body of the `join_room_request` handler of `events/roomEvents.js`
(lines 65 to 100). -/
def joinRoomRequestBody (st : ServerState) (sid : String) (data : Option RoomIdData)
    (now : Nat) : Except String (ServerState × List Emit) :=
  match data with
  | none => .error (tyErr "roomId")
  | some d =>
    if !(jsTruthy d.roomId) then
      .ok (st, [⟨[sid], "error", .errV "Room ID is required"⟩])
    else
      let rid := d.roomId.getD ""
      let p := getUserForSocket st sid now
      let rn := getRoomName rid
      let st2 := joinAdapter p.1 rn sid
      .ok (st2,
        [⟨roomRecipientsExcl st2 rn sid, "user_joined_room",
          .userJoinedRoomP p.2.id p.2.pub rid now⟩,
         ⟨[sid], "room_joined_success", .roomJoinedSuccessP rid "Successfully joined room"⟩])

def joinRoomRequest (st : ServerState) (sid : String) (data : Option RoomIdData)
    (now : Nat) : ServerState × List Emit :=
  handleCaught st sid (joinRoomRequestBody st sid data now)

/-- Body of the `leave_room_request` handler of `events/roomEvents.js`
(lines 103 to 137). -/
def leaveRoomRequestBody (st : ServerState) (sid : String) (data : Option RoomIdData)
    (now : Nat) : Except String (ServerState × List Emit) :=
  match data with
  | none => .error (tyErr "roomId")
  | some d =>
    if !(jsTruthy d.roomId) then
      .ok (st, [⟨[sid], "error", .errV "Room ID is required"⟩])
    else
      let rid := d.roomId.getD ""
      let p := getUserForSocket st sid now
      let rn := getRoomName rid
      let st2 := leaveAdapter p.1 rn sid
      .ok (st2,
        [⟨roomRecipientsExcl st2 rn sid, "user_left_room",
          .userLeftRoomP p.2.id p.2.pubNA rid now⟩,
         ⟨[sid], "room_left_success", .roomLeftSuccessP rid "Successfully left room"⟩])

def leaveRoomRequest (st : ServerState) (sid : String) (data : Option RoomIdData)
    (now : Nat) : ServerState × List Emit :=
  handleCaught st sid (leaveRoomRequestBody st sid data now)

/-- Body of the `get_room_members` handler of `events/roomEvents.js`
(lines 140 to 158): after validating `roomId` it answers with a
hardcoded empty members list and count 0 (the source comments this as a
demo stub). -/
def getRoomMembersBody (st : ServerState) (sid : String) (data : Option RoomIdData) :
    Except String (ServerState × List Emit) :=
  match data with
  | none => .error (tyErr "roomId")
  | some d =>
    if !(jsTruthy d.roomId) then
      .ok (st, [⟨[sid], "error", .errV "Room ID is required"⟩])
    else
      .ok (st, [⟨[sid], "room_members", .roomMembersP (d.roomId.getD "") [] 0⟩])

def getRoomMembersH (st : ServerState) (sid : String) (data : Option RoomIdData) :
    ServerState × List Emit :=
  handleCaught st sid (getRoomMembersBody st sid data)

/-- Body of the `get_room_info` handler of `events/roomEvents.js`
(lines 161 to 190): hardcoded demo room info. -/
def getRoomInfoBody (st : ServerState) (sid : String) (data : Option RoomIdData)
    (now : Nat) : Except String (ServerState × List Emit) :=
  match data with
  | none => .error (tyErr "roomId")
  | some d =>
    if !(jsTruthy d.roomId) then
      .ok (st, [⟨[sid], "error", .errV "Room ID is required"⟩])
    else
      let rid := d.roomId.getD ""
      .ok (st, [⟨[sid], "room_info",
        .roomInfoP
          { id := rid, name := "Room " ++ rid, description := some "Demo room"
            type := "public", createdBy := ⟨"demo-user", "Demo", "User"⟩
            memberCount := 1, createdAt := now } 100⟩])

def getRoomInfoH (st : ServerState) (sid : String) (data : Option RoomIdData)
    (now : Nat) : ServerState × List Emit :=
  handleCaught st sid (getRoomInfoBody st sid data now)

/-- Body of the `update_room` handler of `events/roomEvents.js`
(lines 193 to 231). -/
def updateRoomBody (st : ServerState) (sid : String) (data : Option UpdateRoomData)
    (now : Nat) : Except String (ServerState × List Emit) :=
  match data with
  | none => .error (tyErr "roomId")
  | some d =>
    if !(jsTruthy d.roomId) then
      .ok (st, [⟨[sid], "error", .errV "Room ID is required"⟩])
    else
      let rid := d.roomId.getD ""
      let p := getUserForSocket st sid now
      let upd : RoomUpd :=
        { id := rid
          name := jsOrS d.name ("Room " ++ rid)
          description := jsOrS d.description "Demo room"
          maxMembers := jsOrN d.maxMembers 100
          updatedBy := p.2.pubNA
          timestamp := now }
      let rn := getRoomName rid
      .ok (p.1,
        [⟨roomRecipients p.1 rn, "room_updated", .roomUpdatedP upd⟩,
         ⟨[sid], "room_updated_success", .roomUpdatedSuccessP upd "Room updated successfully"⟩])

def updateRoomH (st : ServerState) (sid : String) (data : Option UpdateRoomData)
    (now : Nat) : ServerState × List Emit :=
  handleCaught st sid (updateRoomBody st sid data now)

/-- Body of the `update_status` handler of `events/userEvents.js`
(lines 97 to 117). -/
def updateStatusBody (st : ServerState) (sid : String) (data : Option StatusData)
    (now : Nat) : Except String (ServerState × List Emit) :=
  match data with
  | none => .error (tyErr "status")
  | some d =>
    let p := getUserForSocket st sid now
    .ok (p.1,
      [⟨broadcastRecipients p.1 sid, "user_status_update",
        .userStatusUpdateP p.2.id d.status now⟩,
       ⟨[sid], "status_updated", .statusUpdatedP d.status "Status updated successfully"⟩])

def updateStatusH (st : ServerState) (sid : String) (data : Option StatusData)
    (now : Nat) : ServerState × List Emit :=
  handleCaught st sid (updateStatusBody st sid data now)

/-- The field update block of `update_profile` (lines 149 to 151 of
`events/userEvents.js`): each truthy payload field overwrites the stored
field, each falsy one is skipped. -/
def applyProfileUpdate (u : User) (d : ProfileData) : User :=
  let u1 := if jsTruthy d.firstName then { u with firstName := d.firstName.getD "" } else u
  let u2 := if jsTruthy d.lastName then { u1 with lastName := d.lastName.getD "" } else u1
  if jsTruthy d.avatar then { u2 with avatar := d.avatar } else u2

/-- Body of the `update_profile` handler of `events/userEvents.js`
(lines 143 to 178). -/
def updateProfileBody (st : ServerState) (sid : String) (data : Option ProfileData)
    (now : Nat) : Except String (ServerState × List Emit) :=
  match data with
  | none => .error (tyErr "firstName")
  | some d =>
    let p := getUserForSocket st sid now
    let u2 := applyProfileUpdate p.2 d
    let st2 := setSocketUser p.1 sid u2
    .ok (st2,
      [⟨broadcastRecipients st2 sid, "user_profile_updated",
        .userProfileUpdatedP u2.id u2.pub now⟩,
       ⟨[sid], "profile_updated", .profileUpdatedP u2.pub "Profile updated successfully"⟩])

def updateProfileH (st : ServerState) (sid : String) (data : Option ProfileData)
    (now : Nat) : ServerState × List Emit :=
  handleCaught st sid (updateProfileBody st sid data now)

/-- Transport-level disconnect of a socket: the socket.io library removes
the socket from every room and from the namespace, then the `disconnect`
handler of `events/userEvents.js` (lines 57 to 71) broadcasts
`user_offline` to the remaining sockets.  A disconnect signal for a
socket that is no longer connected does nothing. -/
def disconnectH (st : ServerState) (sid : String) (now : Nat) : ServerState × List Emit :=
  match findSock st sid with
  | none => (st, [])
  | some sock =>
    let st1 := removeEverywhere st sid
    let u := sock.user.getD (createDemoUser sid now)
    (st1, [⟨socketIds st1, "user_offline", .userOfflineP u.id now⟩])

/-! Concrete demo states used by witnesses and counterexamples. -/

def stA : ServerState := ⟨[⟨"sockA", none⟩], []⟩

def stAB : ServerState := ⟨[⟨"sockA", none⟩, ⟨"sockB", none⟩], []⟩

def stABC : ServerState := ⟨[⟨"sockA", none⟩, ⟨"sockB", none⟩, ⟨"sockC", none⟩], []⟩

/-! Lemmas about the adapter room table. -/

theorem lookup_addMember_self (rs : List (String × List String)) (rn sid : String) :
    lookupMembers (addMember rs rn sid) rn =
      if sid ∈ lookupMembers rs rn then lookupMembers rs rn
      else lookupMembers rs rn ++ [sid] := by
  induction rs with
  | nil => simp [addMember, lookupMembers]
  | cons a rest ih =>
    obtain ⟨n, ms⟩ := a
    by_cases h : n = rn
    · subst h
      by_cases hm : sid ∈ ms <;> simp [addMember, lookupMembers, hm]
    · simp [addMember, lookupMembers, h, ih]

theorem lookup_map_filter (rs : List (String × List String)) (rn : String) (q : String → Bool) :
    lookupMembers (rs.map (fun p => (p.1, p.2.filter q))) rn =
      (lookupMembers rs rn).filter q := by
  induction rs with
  | nil => simp [lookupMembers]
  | cons a rest ih =>
    obtain ⟨n, ms⟩ := a
    by_cases h : n = rn <;> simp [lookupMembers, h, ih]

theorem membersOf_joinAdapter_self (st : ServerState) (rn sid : String) :
    membersOf (joinAdapter st rn sid) rn =
      if sid ∈ membersOf st rn then membersOf st rn
      else membersOf st rn ++ [sid] := by
  unfold membersOf joinAdapter
  exact lookup_addMember_self st.rooms rn sid

theorem mem_membersOf_joinAdapter_self (st : ServerState) (rn sid : String) :
    sid ∈ membersOf (joinAdapter st rn sid) rn := by
  rw [membersOf_joinAdapter_self]
  by_cases hm : sid ∈ membersOf st rn <;> simp [hm]

theorem membersOf_removeEverywhere (st : ServerState) (sid rn : String) :
    membersOf (removeEverywhere st sid) rn =
      (membersOf st rn).filter (fun m => m != sid) := by
  unfold membersOf removeEverywhere
  exact lookup_map_filter st.rooms rn _

/-! Lemmas about the socket list. -/

theorem getUserForSocket_rooms (st : ServerState) (sid : String) (now : Nat) :
    ((getUserForSocket st sid now).1).rooms = st.rooms := by
  unfold getUserForSocket
  cases h : findSock st sid with
  | none => rfl
  | some sock =>
    obtain ⟨sid2, user⟩ := sock
    cases user with
    | some u => rfl
    | none => rfl

theorem membersOf_getUserForSocket (st : ServerState) (sid : String) (now : Nat) (rn : String) :
    membersOf ((getUserForSocket st sid now).1) rn = membersOf st rn := by
  unfold membersOf
  rw [getUserForSocket_rooms]

theorem find_of_mem_ids (l : List Socket) (sid : String) (h : sid ∈ l.map (·.id)) :
    ∃ sock, l.find? (fun s => s.id == sid) = some sock := by
  induction l with
  | nil => simp at h
  | cons a l ih =>
    by_cases ha : a.id = sid
    · exact ⟨a, by simp [List.find?, ha]⟩
    · have h2 : sid ∈ l.map (·.id) := by
        simp only [List.map_cons, List.mem_cons] at h
        rcases h with h | h
        · exact absurd h.symm ha
        · exact h
      obtain ⟨sock, hs⟩ := ih h2
      have hb : (a.id == sid) = false := beq_eq_false_iff_ne.mpr ha
      exact ⟨sock, by simp [List.find?, hb, hs]⟩

theorem findSock_of_mem (st : ServerState) (sid : String) (h : sid ∈ socketIds st) :
    ∃ sock, findSock st sid = some sock :=
  find_of_mem_ids st.sockets sid h

theorem find_filter_ne_none (l : List Socket) (sid : String) :
    (l.filter (fun s => s.id != sid)).find? (fun s => s.id == sid) = none := by
  induction l with
  | nil => rfl
  | cons a l ih =>
    by_cases ha : a.id = sid <;> simp [List.filter_cons, ha, List.find?, ih]

theorem findSock_removeEverywhere (st : ServerState) (sid : String) :
    findSock (removeEverywhere st sid) sid = none :=
  find_filter_ne_none st.sockets sid

theorem map_id_filter (l : List Socket) (sid : String) :
    (l.filter (fun s => s.id != sid)).map (·.id) =
      (l.map (·.id)).filter (fun m => m != sid) := by
  induction l with
  | nil => rfl
  | cons a l ih =>
    by_cases ha : a.id = sid <;> simp [List.filter_cons, ha, ih]

theorem socketIds_removeEverywhere (st : ServerState) (sid : String) :
    socketIds (removeEverywhere st sid) = (socketIds st).filter (fun m => m != sid) :=
  map_id_filter st.sockets sid

/-! Injectivity of the generated room ids: the decimal rendering of the
timestamp is digit-only, so the id `room_<timestamp>_<rand>` determines
the `(timestamp, rand)` pair. -/

/-- Value of a least-significant-first decimal digit list. -/
def ofRevDigits : List Nat → Nat
  | [] => 0
  | d :: ds => d + 10 * ofRevDigits ds

theorem ofRevDigits_digitsRevFuel : ∀ f n : Nat, n ≤ f → ofRevDigits (digitsRevFuel f n) = n := by
  intro f
  induction f with
  | zero =>
    intro n hn
    interval_cases n
    rfl
  | succ f ih =>
    intro n hn
    match n with
    | 0 => rfl
    | n + 1 =>
      have hdiv : (n + 1) / 10 ≤ f := by
        have := Nat.div_lt_self (Nat.succ_pos n) (by norm_num : 1 < 10)
        omega
      simp only [digitsRevFuel, ofRevDigits, ih _ hdiv]
      exact Nat.mod_add_div (n + 1) 10

theorem digitsRevFuel_lt10 : ∀ f n d : Nat, d ∈ digitsRevFuel f n → d < 10 := by
  intro f
  induction f with
  | zero =>
    intro n d hd
    cases n <;> simp [digitsRevFuel] at hd
  | succ f ih =>
    intro n d hd
    cases n with
    | zero => simp [digitsRevFuel] at hd
    | succ n =>
      simp only [digitsRevFuel, List.mem_cons] at hd
      rcases hd with h | h
      · subst h; exact Nat.mod_lt _ (by norm_num)
      · exact ih _ _ h

theorem digitChar_inj10 : ∀ a < 10, ∀ b < 10, Nat.digitChar a = Nat.digitChar b → a = b := by
  decide

theorem digitChar_ne_underscore : ∀ a < 10, Nat.digitChar a ≠ '_' := by
  decide

theorem map_digitChar_inj :
    ∀ l1 l2 : List Nat, (∀ d ∈ l1, d < 10) → (∀ d ∈ l2, d < 10) →
      l1.map Nat.digitChar = l2.map Nat.digitChar → l1 = l2 := by
  intro l1
  induction l1 with
  | nil =>
    intro l2 _ _ h
    cases l2 with
    | nil => rfl
    | cons b t => simp at h
  | cons a l ih =>
    intro l2 h1 h2 h
    cases l2 with
    | nil => simp at h
    | cons b t =>
      simp only [List.map_cons, List.cons.injEq] at h
      have ha : a = b :=
        digitChar_inj10 a (h1 a (by simp)) b (h2 b (by simp)) h.1
      have ht : l = t :=
        ih t (fun d hd => h1 d (by simp [hd])) (fun d hd => h2 d (by simp [hd])) h.2
      rw [ha, ht]

theorem jsNumToString_inj : ∀ a b : Nat, jsNumToString a = jsNumToString b → a = b := by
  intro a b h
  unfold jsNumToString at h
  by_cases ha : a = 0 <;> by_cases hb : b = 0
  · rw [ha, hb]
  · exfalso
    simp only [ha, hb, if_pos, if_neg, if_true, if_false] at h
    have hd := congrArg String.data h
    simp only [String.data] at hd
    have : (digitsRevFuel b b).map Nat.digitChar = ['0'] := by
      have := congrArg List.reverse hd
      simpa using this.symm
    have hb0 : digitsRevFuel b b = [0] := by
      apply map_digitChar_inj _ [0] (fun d hd2 => digitsRevFuel_lt10 b b d hd2)
        (by intro d hd2; simp at hd2; omega)
      simpa [Nat.digitChar] using this
    have := ofRevDigits_digitsRevFuel b b le_rfl
    rw [hb0] at this
    simp [ofRevDigits] at this
    exact hb this.symm
  · exfalso
    simp only [ha, hb, if_pos, if_neg, if_true, if_false] at h
    have hd := congrArg String.data h
    simp only [String.data] at hd
    have : (digitsRevFuel a a).map Nat.digitChar = ['0'] := by
      have := congrArg List.reverse hd
      simpa using this
    have ha0 : digitsRevFuel a a = [0] := by
      apply map_digitChar_inj _ [0] (fun d hd2 => digitsRevFuel_lt10 a a d hd2)
        (by intro d hd2; simp at hd2; omega)
      simpa [Nat.digitChar] using this
    have := ofRevDigits_digitsRevFuel a a le_rfl
    rw [ha0] at this
    simp [ofRevDigits] at this
    exact ha this.symm
  · simp only [ha, hb, if_neg] at h
    have hd := congrArg String.data h
    simp only [String.data] at hd
    have hrev := List.reverse_injective hd
    have hlist := map_digitChar_inj _ _
      (fun d hd2 => digitsRevFuel_lt10 a a d hd2)
      (fun d hd2 => digitsRevFuel_lt10 b b d hd2) hrev
    calc a = ofRevDigits (digitsRevFuel a a) := (ofRevDigits_digitsRevFuel a a le_rfl).symm
      _ = ofRevDigits (digitsRevFuel b b) := by rw [hlist]
      _ = b := ofRevDigits_digitsRevFuel b b le_rfl

theorem underscore_notin_jsNumToString (n : Nat) : '_' ∉ (jsNumToString n).data := by
  by_cases h : n = 0
  · subst h
    decide
  · unfold jsNumToString
    simp only [h, if_neg]
    show '_' ∉ ((digitsRevFuel n n).map Nat.digitChar).reverse
    intro hmem
    simp only [List.mem_reverse, List.mem_map] at hmem
    obtain ⟨d, hd, hdc⟩ := hmem
    exact digitChar_ne_underscore d (digitsRevFuel_lt10 n n d hd) hdc

theorem append_cons_underscore_inj :
    ∀ d1 r1 d2 r2 : List Char, '_' ∉ d1 → '_' ∉ d2 →
      d1 ++ '_' :: r1 = d2 ++ '_' :: r2 → d1 = d2 ∧ r1 = r2 := by
  intro d1
  induction d1 with
  | nil =>
    intro r1 d2 r2 _ h2 h
    cases d2 with
    | nil => simpa using h
    | cons c t =>
      exfalso
      simp only [List.nil_append, List.cons_append, List.cons.injEq] at h
      exact h2 (by simp [← h.1])
  | cons c t ih =>
    intro r1 d2 r2 h1 h2 h
    cases d2 with
    | nil =>
      exfalso
      simp only [List.nil_append, List.cons_append, List.cons.injEq] at h
      exact h1 (by simp [h.1])
    | cons c2 t2 =>
      simp only [List.cons_append, List.cons.injEq] at h
      have := ih r1 t2 r2 (fun hm => h1 (by simp [hm])) (fun hm => h2 (by simp [hm])) h.2
      exact ⟨by rw [h.1, this.1], this.2⟩

theorem createRoomId_inj (t1 t2 : Nat) (r1 r2 : String)
    (h : createRoomId t1 r1 = createRoomId t2 r2) : t1 = t2 ∧ r1 = r2 := by
  unfold createRoomId at h
  have hd := congrArg String.data h
  simp only [String.data_append] at hd
  have hd2 : (jsNumToString t1).data ++ '_' :: r1.data =
      (jsNumToString t2).data ++ '_' :: r2.data := by
    simp only [List.append_assoc, List.cons_append, List.nil_append,
      List.cons.injEq, true_and] at hd
    simpa using hd
  have := append_cons_underscore_inj _ _ _ _
    (underscore_notin_jsNumToString t1) (underscore_notin_jsNumToString t2) hd2
  refine ⟨jsNumToString_inj t1 t2 (String.ext this.1), String.ext this.2⟩

theorem find_map_set (sid : String) (u : User) :
    ∀ l : List Socket,
      List.find? (fun s => s.id == sid)
          (l.map (fun s => if s.id == sid then { s with user := some u } else s)) =
        (List.find? (fun s => s.id == sid) l).map (fun s => { s with user := some u }) := by
  intro l
  induction l with
  | nil => rfl
  | cons a l ih =>
    simp only [List.map_cons]
    by_cases ha : a.id = sid
    · have hb : (a.id == sid) = true := by simp [ha]
      rw [if_pos hb]
      have hb2 : (({ a with user := some u } : Socket).id == sid) = true := by simp [ha]
      rw [List.find?_cons_of_pos (p := fun s : Socket => s.id == sid) _ hb2,
        List.find?_cons_of_pos (p := fun s : Socket => s.id == sid) _ hb]
      rfl
    · have hb : (a.id == sid) = false := beq_eq_false_iff_ne.mpr ha
      rw [if_neg (by simp [hb])]
      rw [List.find?_cons_of_neg (p := fun s : Socket => s.id == sid) _ (by simp [hb]),
        List.find?_cons_of_neg (p := fun s : Socket => s.id == sid) _ (by simp [hb]), ih]

theorem findSock_setSocketUser (st : ServerState) (sid : String) (u : User) :
    findSock (setSocketUser st sid u) sid =
      (findSock st sid).map (fun s => { s with user := some u }) :=
  find_map_set sid u st.sockets

theorem getRoomMembers_response (st : ServerState) (sid rid : String) (h : rid ≠ "") :
    (getRoomMembersH st sid (some ⟨some rid⟩)).2 =
      [⟨[sid], "room_members", .roomMembersP rid [] 0⟩] := by
  have hb : (rid == "") = false := beq_eq_false_iff_ne.mpr h
  simp [getRoomMembersH, getRoomMembersBody, handleCaught, jsTruthy, hb]

/-! The claims. -/

/-- Claim C1: for every room R and sessions A and B that are members of
room R (having joined it), when A sends `send_message` with roomId R and
content "x", both A and B receive a `message_sent` event whose
`message.content` equals "x" (the sender is included in the fan-out),
and a session C that never joined R receives no `message_sent` or
`new_message` event for that send. -/
theorem C1_send_message_fanout (st : ServerState) (A B C R x : String) (now : Nat)
    (rand : String) (hR : R ≠ "") (hx : x ≠ "")
    (hA : A ∈ membersOf st (getRoomName R)) (hB : B ∈ membersOf st (getRoomName R))
    (hC : C ∉ membersOf st (getRoomName R)) :
    (∃ e ∈ (sendMessage st A (some ⟨some R, some x, none, none⟩) now rand).2,
      e.event = "message_sent" ∧ A ∈ e.recipients ∧ B ∈ e.recipients ∧
      ∃ m : Message, e.payload = .messageSentP m ∧ m.content = x) ∧
    ∀ e ∈ (sendMessage st A (some ⟨some R, some x, none, none⟩) now rand).2,
      C ∉ e.recipients := by
  have hbR : (R == "") = false := beq_eq_false_iff_ne.mpr hR
  have hbx : (x == "") = false := beq_eq_false_iff_ne.mpr hx
  have hs : sendMessage st A (some ⟨some R, some x, none, none⟩) now rand =
      ((getUserForSocket st A now).1,
       [⟨roomRecipients (getUserForSocket st A now).1 (getRoomName R), "message_sent",
          .messageSentP (mkSentMessage (getUserForSocket st A now).2 R x "text" none now rand)⟩,
        ⟨roomRecipients (getUserForSocket st A now).1 (getRoomName R), "new_message",
          .newMessageP (mkSentMessage (getUserForSocket st A now).2 R x "text" none now rand)⟩]) := by
    simp [sendMessage, sendMessageBody, handleCaught, jsTruthy, hbR, hbx]
  have hrec : roomRecipients (getUserForSocket st A now).1 (getRoomName R) =
      membersOf st (getRoomName R) := membersOf_getUserForSocket st A now (getRoomName R)
  rw [hs]
  constructor
  · refine ⟨_, List.mem_cons_self _ _, rfl, ?_, ?_,
      mkSentMessage (getUserForSocket st A now).2 R x "text" none now rand, rfl, rfl⟩
    · show A ∈ roomRecipients (getUserForSocket st A now).1 (getRoomName R)
      rw [hrec]; exact hA
    · show B ∈ roomRecipients (getUserForSocket st A now).1 (getRoomName R)
      rw [hrec]; exact hB
  · intro e he
    simp only [List.mem_cons, List.not_mem_nil, or_false] at he
    rcases he with rfl | rfl
    · show C ∉ roomRecipients (getUserForSocket st A now).1 (getRoomName R)
      rw [hrec]; exact hC
    · show C ∉ roomRecipients (getUserForSocket st A now).1 (getRoomName R)
      rw [hrec]; exact hC

/-- Witness for C1 at a concrete input: sockets A, B, C connected, A and
B members of room r1, A sends content "x". -/
theorem C1_send_message_fanout_witness :
    (∃ e ∈ (sendMessage ⟨stABC.sockets, [("room:r1", ["sockA", "sockB"])]⟩ "sockA"
        (some ⟨some "r1", some "x", none, none⟩) 0 "z").2,
      e.event = "message_sent" ∧ "sockA" ∈ e.recipients ∧ "sockB" ∈ e.recipients ∧
      ∃ m : Message, e.payload = .messageSentP m ∧ m.content = "x") ∧
    ∀ e ∈ (sendMessage ⟨stABC.sockets, [("room:r1", ["sockA", "sockB"])]⟩ "sockA"
        (some ⟨some "r1", some "x", none, none⟩) 0 "z").2, "sockC" ∉ e.recipients :=
  C1_send_message_fanout ⟨stABC.sockets, [("room:r1", ["sockA", "sockB"])]⟩
    "sockA" "sockB" "sockC" "r1" "x" 0 "z"
    (by decide) (by decide) (by decide) (by decide) (by decide)

/-- Claim C2, evaluated on the code at the failing input: with sockets A
and B both members of room r1, A sends `typing_start` then `typing_stop`.
The code delivers to B exactly one `user_typing` event (carrying no
`isTyping` flag at all) followed by one `user_stopped_typing` event — not
the two `user_typing` events with `isTyping` true / false that the claim
(and the repository's own `WEBSOCKET_API.md` and `test-websocket.js`)
describe.  No typing event is delivered back to A. -/
theorem C2_typing_events_evaluated :
    ∃ st3 st4 : ServerState,
      typingStart (joinRoom (joinRoom stAB "sockA" (some ⟨some "r1"⟩) 0).1 "sockB"
          (some ⟨some "r1"⟩) 1).1 "sockA" (some ⟨some "r1"⟩) 2 =
        .ok (st3, [⟨["sockB"], "user_typing",
          .userTypingP "sockA" ⟨"sockA", "UserockA", "Demo"⟩ 2⟩]) ∧
      typingStop st3 "sockA" (some ⟨some "r1"⟩) 3 =
        .ok (st4, [⟨["sockB"], "user_stopped_typing", .userStoppedTypingP "sockA" 3⟩]) :=
  ⟨_, _, rfl, rfl⟩

/-- Claim C3: when a connected session X disconnects, every remaining
connected member of rooms R1 and R2 receives the `user_offline` cleanup
broadcast, X is no longer a member of either room afterwards, a
subsequent `get_room_members` response does not list X (the handler
answers with an empty list), and signalling the disconnect a second time
has no additional effect. -/
theorem C3_disconnect_cleanup (st : ServerState) (X R1 R2 : String) (now now2 : Nat)
    (hconn : X ∈ socketIds st) :
    (∀ m, (m ∈ membersOf st (getRoomName R1) ∨ m ∈ membersOf st (getRoomName R2)) →
       m ∈ socketIds st → m ≠ X →
       ∃ e ∈ (disconnectH st X now).2, e.event = "user_offline" ∧ m ∈ e.recipients) ∧
    X ∉ membersOf (disconnectH st X now).1 (getRoomName R1) ∧
    X ∉ membersOf (disconnectH st X now).1 (getRoomName R2) ∧
    (∀ sid2 rid2, rid2 ≠ "" →
      (getRoomMembersH (disconnectH st X now).1 sid2 (some ⟨some rid2⟩)).2 =
        [⟨[sid2], "room_members", .roomMembersP rid2 [] 0⟩]) ∧
    disconnectH (disconnectH st X now).1 X now2 = ((disconnectH st X now).1, []) := by
  obtain ⟨sock, hsock⟩ := findSock_of_mem st X hconn
  have hd : disconnectH st X now = (removeEverywhere st X,
      [⟨socketIds (removeEverywhere st X), "user_offline",
        .userOfflineP (sock.user.getD (createDemoUser X now)).id now⟩]) := by
    unfold disconnectH
    rw [hsock]
  rw [hd]
  refine ⟨?_, ?_, ?_, ?_, ?_⟩
  · intro m hm hms hmX
    refine ⟨_, List.mem_cons_self _ _, rfl, ?_⟩
    show m ∈ socketIds (removeEverywhere st X)
    rw [socketIds_removeEverywhere]
    simp only [List.mem_filter, bne_iff_ne, ne_eq, decide_eq_true_eq]
    exact ⟨hms, hmX⟩
  · rw [membersOf_removeEverywhere]
    simp
  · rw [membersOf_removeEverywhere]
    simp
  · intro sid2 rid2 h2
    exact getRoomMembers_response _ sid2 rid2 h2
  · unfold disconnectH
    rw [findSock_removeEverywhere]

/-- Witness for C3 at a concrete input: X = sockA is a member of rooms
r1 and r2 and disconnects. -/
theorem C3_disconnect_cleanup_witness :
    "sockA" ∉ membersOf (disconnectH ⟨stABC.sockets,
        [("room:r1", ["sockA", "sockB"]), ("room:r2", ["sockA", "sockC"])]⟩ "sockA" 0).1
      (getRoomName "r1") ∧
    disconnectH (disconnectH ⟨stABC.sockets,
        [("room:r1", ["sockA", "sockB"]), ("room:r2", ["sockA", "sockC"])]⟩ "sockA" 0).1
      "sockA" 1 =
      ((disconnectH ⟨stABC.sockets,
        [("room:r1", ["sockA", "sockB"]), ("room:r2", ["sockA", "sockC"])]⟩ "sockA" 0).1, []) :=
  ⟨(C3_disconnect_cleanup ⟨stABC.sockets,
      [("room:r1", ["sockA", "sockB"]), ("room:r2", ["sockA", "sockC"])]⟩
      "sockA" "r1" "r2" 0 1 (by decide)).2.1,
   (C3_disconnect_cleanup ⟨stABC.sockets,
      [("room:r1", ["sockA", "sockB"]), ("room:r2", ["sockA", "sockC"])]⟩
      "sockA" "r1" "r2" 0 1 (by decide)).2.2.2.2⟩

/-- Claim C4 counterexample: after sockA creates a room, the
`get_room_members` response for the new room id is `members = []`,
`count = 0` — not the member set `{creator}` with count 1 the claim
states (the adapter does record sockA as the sole member, but the
handler's response is a hardcoded empty list). -/
theorem C4_get_room_members_counterexample :
    (⟨["sockA"], "room_members", .roomMembersP (createRoomId 0 "abc") [] 0⟩ ∈
      (getRoomMembersH (createRoom stA "sockA" (some ⟨some "Lounge", none, none, none⟩) 0 "abc").1
        "sockA" (some ⟨some (createRoomId 0 "abc")⟩)).2) ∧
    ¬ ∃ e ∈ (getRoomMembersH
        (createRoom stA "sockA" (some ⟨some "Lounge", none, none, none⟩) 0 "abc").1
        "sockA" (some ⟨some (createRoomId 0 "abc")⟩)).2,
      e.event = "room_members" ∧
        e.payload = .roomMembersP (createRoomId 0 "abc") ["sockA"] 1 := by
  decide

/-- Claim C4 (amended): immediately after `create_room` the creator is
the sole member of the new room in the adapter's membership table, but a
`get_room_members` request returns a hardcoded empty members list with
count 0, not the member set `{creator}` with count 1. -/
theorem C4_create_room_membership_amended (st : ServerState) (sid name : String)
    (desc typ : Option String) (mm : Option Nat) (t : Nat) (r : String)
    (hname : name ≠ "")
    (hfresh : membersOf st (getRoomName (createRoomId t r)) = []) :
    membersOf (createRoom st sid (some ⟨some name, desc, typ, mm⟩) t r).1
        (getRoomName (createRoomId t r)) = [sid] ∧
    (∀ st2 sid2 rid2, rid2 ≠ "" →
      (getRoomMembersH st2 sid2 (some ⟨some rid2⟩)).2 =
        [⟨[sid2], "room_members", .roomMembersP rid2 [] 0⟩]) := by
  have hb : (name == "") = false := beq_eq_false_iff_ne.mpr hname
  have hc : (createRoom st sid (some ⟨some name, desc, typ, mm⟩) t r).1 =
      joinAdapter (getUserForSocket st sid t).1 (getRoomName (createRoomId t r)) sid := by
    simp [createRoom, createRoomBody, handleCaught, jsTruthy, hb]
  rw [hc]
  constructor
  · rw [membersOf_joinAdapter_self, membersOf_getUserForSocket, hfresh]
    simp
  · intro st2 sid2 rid2 h2
    exact getRoomMembers_response st2 sid2 rid2 h2

/-- Witness for the amended C4 at a concrete input. -/
theorem C4_create_room_membership_amended_witness :
    membersOf (createRoom stA "sockA" (some ⟨some "Lounge", none, none, none⟩) 0 "abc").1
      (getRoomName (createRoomId 0 "abc")) = ["sockA"] :=
  (C4_create_room_membership_amended stA "sockA" "Lounge" none none none 0 "abc"
    (by decide) (by decide)).1

/-- Claim C5 counterexample: joining a room id for which no room was ever
created ("ghost", in a state with no rooms) emits no error event at all
(in particular no RoomNotFound) and does add the session to the room's
membership set. -/
theorem C5_join_unknown_room_counterexample :
    (∀ e ∈ (joinRoom stA "sockA" (some ⟨some "ghost"⟩) 0).2, e.event ≠ "error") ∧
    "sockA" ∈ membersOf (joinRoom stA "sockA" (some ⟨some "ghost"⟩) 0).1
      (getRoomName "ghost") := by
  decide

/-- Claim C5 (amended): `join_room` checks only that `roomId` is present
and truthy; there is no room-existence check and no RoomNotFound error.
Any truthy room id — known or unknown — is joined idempotently (the
membership set is unchanged when the session is already a member), the
joiner gets `room_joined`, and no error event is emitted.  A falsy
`roomId` yields the local error `Room ID is required` with no state
change. -/
theorem C5_join_room_amended (st : ServerState) (sid R : String) (now : Nat)
    (hR : R ≠ "") :
    sid ∈ membersOf (joinRoom st sid (some ⟨some R⟩) now).1 (getRoomName R) ∧
    (sid ∈ membersOf st (getRoomName R) →
      membersOf (joinRoom st sid (some ⟨some R⟩) now).1 (getRoomName R) =
        membersOf st (getRoomName R)) ∧
    (∀ e ∈ (joinRoom st sid (some ⟨some R⟩) now).2, e.event ≠ "error") ∧
    (⟨[sid], "room_joined", .roomJoinedP R "Successfully joined room"⟩ ∈
      (joinRoom st sid (some ⟨some R⟩) now).2) ∧
    (∀ st2 sid2 now2, joinRoom st2 sid2 (some ⟨none⟩) now2 =
      (st2, [⟨[sid2], "error", .errV "Room ID is required"⟩])) := by
  have hb : (R == "") = false := beq_eq_false_iff_ne.mpr hR
  have hj : joinRoom st sid (some ⟨some R⟩) now =
      (joinAdapter (getUserForSocket st sid now).1 (getRoomName R) sid,
       [⟨roomRecipientsExcl (joinAdapter (getUserForSocket st sid now).1 (getRoomName R) sid)
           (getRoomName R) sid, "user_joined",
         .userJoinedP (getUserForSocket st sid now).2.id (getUserForSocket st sid now).2.pub now⟩,
        ⟨[sid], "room_joined", .roomJoinedP R "Successfully joined room"⟩]) := by
    simp [joinRoom, joinRoomBody, handleCaught, jsTruthy, hb]
  rw [hj]
  refine ⟨mem_membersOf_joinAdapter_self _ _ _, ?_, ?_, ?_, ?_⟩
  · intro hmem
    rw [membersOf_joinAdapter_self, membersOf_getUserForSocket]
    simp [hmem]
  · intro e he
    simp only [List.mem_cons, List.not_mem_nil, or_false] at he
    rcases he with rfl | rfl
    · show "user_joined" ≠ "error"
      decide
    · show "room_joined" ≠ "error"
      decide
  · simp
  · intro st2 sid2 now2
    rfl

/-- Witness for the amended C5 at a concrete input. -/
theorem C5_join_room_amended_witness :
    "sockA" ∈ membersOf (joinRoom stA "sockA" (some ⟨some "r1"⟩) 0).1 (getRoomName "r1") :=
  (C5_join_room_amended stA "sockA" "r1" 0 (by decide)).1

/-- Claim C6 counterexample: `typing_start` invoked with a missing
payload object has no try/catch in the source — the destructuring error
is thrown out of the handler instead of being caught and surfaced as a
local error event. -/
theorem C6_typing_start_throws_counterexample :
    typingStart stA "sockA" none 0 = Except.error (tyErr "roomId") := rfl

/-- Claim C6 (amended): every payload-destructuring event handler except
`typing_start` and `typing_stop` wraps its body in try/catch, so a
missing payload object produces exactly one local `error` event on the
originating connection and leaves the state unchanged; `typing_start`
and `typing_stop` have no try/catch and throw the destructuring error
out of the handler. -/
theorem C6_handlers_amended (st : ServerState) (sid : String) (now : Nat) (rand : String) :
    joinRoom st sid none now =
      (st, [⟨[sid], "error", .errC (tyErr "roomId") "UNKNOWN_ERROR"⟩]) ∧
    leaveRoom st sid none now =
      (st, [⟨[sid], "error", .errC (tyErr "roomId") "UNKNOWN_ERROR"⟩]) ∧
    sendMessage st sid none now rand =
      (st, [⟨[sid], "error", .errC (tyErr "roomId") "UNKNOWN_ERROR"⟩]) ∧
    editMessage st sid none now =
      (st, [⟨[sid], "error", .errC (tyErr "messageId") "UNKNOWN_ERROR"⟩]) ∧
    deleteMessage st sid none now =
      (st, [⟨[sid], "error", .errC (tyErr "messageId") "UNKNOWN_ERROR"⟩]) ∧
    createRoom st sid none now rand =
      (st, [⟨[sid], "error", .errC (tyErr "name") "UNKNOWN_ERROR"⟩]) ∧
    joinRoomRequest st sid none now =
      (st, [⟨[sid], "error", .errC (tyErr "roomId") "UNKNOWN_ERROR"⟩]) ∧
    leaveRoomRequest st sid none now =
      (st, [⟨[sid], "error", .errC (tyErr "roomId") "UNKNOWN_ERROR"⟩]) ∧
    getRoomMembersH st sid none =
      (st, [⟨[sid], "error", .errC (tyErr "roomId") "UNKNOWN_ERROR"⟩]) ∧
    getRoomInfoH st sid none now =
      (st, [⟨[sid], "error", .errC (tyErr "roomId") "UNKNOWN_ERROR"⟩]) ∧
    updateRoomH st sid none now =
      (st, [⟨[sid], "error", .errC (tyErr "roomId") "UNKNOWN_ERROR"⟩]) ∧
    updateStatusH st sid none now =
      (st, [⟨[sid], "error", .errC (tyErr "status") "UNKNOWN_ERROR"⟩]) ∧
    updateProfileH st sid none now =
      (st, [⟨[sid], "error", .errC (tyErr "firstName") "UNKNOWN_ERROR"⟩]) ∧
    typingStart st sid none now = Except.error (tyErr "roomId") ∧
    typingStop st sid none now = Except.error (tyErr "roomId") :=
  ⟨rfl, rfl, rfl, rfl, rfl, rfl, rfl, rfl, rfl, rfl, rfl, rfl, rfl, rfl, rfl⟩

/-- Claim C7: `send_message` with payload `{roomId: null, content: "x"}`
emits exactly `error` with message `Room ID and content are required` to
the sender only, broadcasts no `message_sent` or `new_message` to
anyone, and changes no state. -/
theorem C7_send_message_null_roomId (st : ServerState) (sid : String) (now : Nat)
    (rand : String) :
    sendMessage st sid (some ⟨none, some "x", none, none⟩) now rand =
      (st, [⟨[sid], "error", .errV "Room ID and content are required"⟩]) := rfl

/-- Claim C8 counterexample: two `create_room` calls for which
`Date.now()` and the random suffix return the same values (time 7,
suffix "rnch") return the same room id — the code performs no
uniqueness check against previously issued ids. -/
theorem C8_duplicate_room_id_counterexample :
    ∃ room1 room2 : RoomRec,
      (⟨["sockA"], "room_created_success",
          .roomCreatedSuccessP room1 "Room created successfully"⟩ ∈
        (createRoom stA "sockA" (some ⟨some "Lounge", none, none, none⟩) 7 "rnch").2) ∧
      (⟨["sockA"], "room_created_success",
          .roomCreatedSuccessP room2 "Room created successfully"⟩ ∈
        (createRoom (createRoom stA "sockA" (some ⟨some "Lounge", none, none, none⟩) 7 "rnch").1
          "sockA" (some ⟨some "Lounge", none, none, none⟩) 7 "rnch").2) ∧
      room1.id = room2.id := by
  refine ⟨⟨createRoomId 7 "rnch", "Lounge", none, "public", "sockA", 100, 7⟩,
          ⟨createRoomId 7 "rnch", "Lounge", none, "public", "sockA", 100, 7⟩, ?_, ?_, rfl⟩
  · decide
  · decide

/-- Claim C8 (amended): the room id issued by `create_room` is
`room_<Date.now()>_<suffix>`; two creations receive distinct ids
whenever their observed (timestamp, random suffix) pairs differ — the
decimal timestamp rendering contains no underscore, so the id determines
the pair — but nothing prevents equal observations from colliding. -/
theorem C8_room_id_distinct_amended (t1 t2 : Nat) (r1 r2 : String)
    (h : t1 ≠ t2 ∨ r1 ≠ r2) :
    createRoomId t1 r1 ≠ createRoomId t2 r2 := by
  intro heq
  obtain ⟨ht, hr⟩ := createRoomId_inj t1 t2 r1 r2 heq
  rcases h with h | h
  · exact h ht
  · exact h hr

/-- Witness for the amended C8 at a concrete input. -/
theorem C8_room_id_distinct_amended_witness :
    createRoomId 0 "aa" ≠ createRoomId 1 "aa" :=
  C8_room_id_distinct_amended 0 1 "aa" "aa" (Or.inl (by decide))

/-- Claim C9: for a connected socket with no user attached yet,
`getUserForSocket` synthesizes the identity deterministically from the
socket id alone — id is the socket id, firstName is "User" followed by
the last four characters of the socket id, lastName is "Demo" — and the
function is idempotent: any later call on the same socket returns the
identical user and leaves the state unchanged. -/
theorem C9_getUserForSocket_deterministic_idempotent (st : ServerState) (sid : String)
    (sock : Socket) (now now2 : Nat)
    (h : findSock st sid = some sock) (hu : sock.user = none) :
    (getUserForSocket st sid now).2.id = sid ∧
    (getUserForSocket st sid now).2.firstName = "User" ++ jsSliceNeg4 sid ∧
    (getUserForSocket st sid now).2.lastName = "Demo" ∧
    getUserForSocket (getUserForSocket st sid now).1 sid now2 =
      ((getUserForSocket st sid now).1, (getUserForSocket st sid now).2) := by
  obtain ⟨sid0, user0⟩ := sock
  simp only at hu
  subst hu
  have hg : getUserForSocket st sid now =
      (setSocketUser st sid (createDemoUser sid now), createDemoUser sid now) := by
    unfold getUserForSocket
    rw [h]
  rw [hg]
  refine ⟨rfl, rfl, rfl, ?_⟩
  have hset := findSock_setSocketUser st sid (createDemoUser sid now)
  rw [h] at hset
  unfold getUserForSocket
  rw [hset]
  rfl

/-- Witness for C9 at a concrete input. -/
theorem C9_getUserForSocket_witness :
    (getUserForSocket stA "sockA" 0).2.id = "sockA" ∧
    (getUserForSocket stA "sockA" 0).2.firstName = "User" ++ jsSliceNeg4 "sockA" ∧
    (getUserForSocket stA "sockA" 0).2.lastName = "Demo" ∧
    getUserForSocket (getUserForSocket stA "sockA" 0).1 "sockA" 5 =
      ((getUserForSocket stA "sockA" 0).1, (getUserForSocket stA "sockA" 0).2) :=
  C9_getUserForSocket_deterministic_idempotent stA "sockA" ⟨"sockA", none⟩ 0 5 rfl rfl

/-- Claim C10: `update_profile` stores exactly `applyProfileUpdate` of
the current user: each of firstName, lastName and avatar keeps its
previous value when the payload field is absent or falsy (empty string)
and is overwritten when the field is truthy, and no other user field
(id, email, role, isOnline, lastSeen) is modified. -/
theorem C10_update_profile_frame (st : ServerState) (sid : String) (d : ProfileData)
    (now : Nat) :
    (updateProfileH st sid (some d) now).1 =
      setSocketUser (getUserForSocket st sid now).1 sid
        (applyProfileUpdate (getUserForSocket st sid now).2 d) ∧
    ∀ u : User,
      ((jsTruthy d.firstName = false → (applyProfileUpdate u d).firstName = u.firstName) ∧
       (jsTruthy d.firstName = true → (applyProfileUpdate u d).firstName = d.firstName.getD "")) ∧
      ((jsTruthy d.lastName = false → (applyProfileUpdate u d).lastName = u.lastName) ∧
       (jsTruthy d.lastName = true → (applyProfileUpdate u d).lastName = d.lastName.getD "")) ∧
      ((jsTruthy d.avatar = false → (applyProfileUpdate u d).avatar = u.avatar) ∧
       (jsTruthy d.avatar = true → (applyProfileUpdate u d).avatar = d.avatar)) ∧
      (applyProfileUpdate u d).id = u.id ∧
      (applyProfileUpdate u d).email = u.email ∧
      (applyProfileUpdate u d).role = u.role ∧
      (applyProfileUpdate u d).isOnline = u.isOnline ∧
      (applyProfileUpdate u d).lastSeen = u.lastSeen := by
  constructor
  · rfl
  · intro u
    unfold applyProfileUpdate
    cases hf : jsTruthy d.firstName <;> cases hl : jsTruthy d.lastName <;>
      cases ha : jsTruthy d.avatar <;> simp

/-- Witness for C10 at a concrete input: firstName supplied ("Alice"),
lastName absent, avatar supplied but empty (falsy). -/
theorem C10_update_profile_frame_witness :
    (applyProfileUpdate (createDemoUser "sockA" 0)
        ⟨some "Alice", none, some ""⟩).firstName = "Alice" ∧
    (applyProfileUpdate (createDemoUser "sockA" 0)
        ⟨some "Alice", none, some ""⟩).lastName = (createDemoUser "sockA" 0).lastName ∧
    (applyProfileUpdate (createDemoUser "sockA" 0)
        ⟨some "Alice", none, some ""⟩).avatar = (createDemoUser "sockA" 0).avatar :=
  have h := (C10_update_profile_frame stA "sockA" ⟨some "Alice", none, some ""⟩ 0).2
    (createDemoUser "sockA" 0)
  ⟨h.1.2 rfl, h.2.1.1 rfl, h.2.2.1.1 rfl⟩

end WsApi
